import Mathlib

/-!
Verification development for the pyServer worker process
(src/packages/internal/wekaPython/resources/py/pyServer.py).

The development shallowly embeds the framing layer, the header inference of
the instance marshalling code, the variable exchange (base64 carrier plus a
model of the external object codec), and the command dispatcher.  Machine
strings are modelled as lists of natural numbers (Unicode code points or
byte values); the transport is modelled as a byte stream consumed in
adversarially chosen chunks.
-/

namespace PyServer

/-! ## Framing layer: send side (send_response, lines 185-194) -/

/-- UTF-8 encoding of a single Unicode code point (the byte sequence Python
produces for one character under str.encode with utf-8). -/
def utf8EncodeChar (c : Nat) : List Nat :=
  if c < 0x80 then [c]
  else if c < 0x800 then [0xC0 + c / 64, 0x80 + c % 64]
  else if c < 0x10000 then
    [0xE0 + c / 4096, 0x80 + (c / 64) % 64, 0x80 + c % 64]
  else
    [0xF0 + c / 262144, 0x80 + (c / 4096) % 64, 0x80 + (c / 64) % 64, 0x80 + c % 64]

/-- UTF-8 encoding of a text, character by character. -/
def utf8Encode (s : List Nat) : List Nat :=
  (s.map utf8EncodeChar).flatten

/-- Big-endian 4-byte packing of a natural number, model of
struct.pack with format >L; the format raises struct.error (here: none)
when the value does not fit in 32 bits. -/
def structPackL (n : Nat) : Option (List Nat) :=
  if n < 2 ^ 32 then
    some [n / 2 ^ 24 % 256, n / 2 ^ 16 % 256, n / 2 ^ 8 % 256, n % 256]
  else none

/-- Big-endian value of a byte list (the number struct.unpack with >L reads
from a 4-byte buffer). -/
def beVal (bs : List Nat) : Nat :=
  bs.foldl (fun a b => a * 256 + b) 0

/-- Model of send_response for an already-serialized text payload: the bytes
put on the wire are a 4-byte big-endian prefix packed from the PYTHON STRING
LENGTH of the payload (len(response), counted in characters), followed by the
UTF-8 encoding of the payload.  Returns none when struct.pack fails. -/
def send_response (payload : List Nat) : Option (List Nat × List Nat) :=
  (structPackL payload.length).map (fun pre => (pre, utf8Encode payload))

/-! ## Framing layer: receive side (receive_message, lines 196-219) -/

/-- Errors a receive can hit: starvation of the modelled chunk schedule
(the real loop would block forever), a struct.error from unpacking a buffer
that is not exactly 4 bytes, and a UnicodeDecodeError from decoding a chunk
that is not valid UTF-8. -/
inductive RecvErr where
  | blocked
  | structError
  | unicodeError
deriving DecidableEq, Repr

/-- Strict UTF-8 decoder on byte lists (model of bytes.decode with utf-8):
rejects continuation-byte leads, overlong forms, surrogates and values above
U+10FFFF, as Python does. -/
def utf8Decode : List Nat → Option (List Nat)
  | [] => some []
  | b :: rest =>
    if b < 0x80 then (utf8Decode rest).map (fun t => b :: t)
    else if b < 0xC2 then none
    else if b < 0xE0 then
      match rest with
      | b2 :: r2 =>
        if 0x80 ≤ b2 ∧ b2 < 0xC0 then
          (utf8Decode r2).map (fun t => ((b - 0xC0) * 64 + (b2 - 0x80)) :: t)
        else none
      | [] => none
    else if b < 0xF0 then
      match rest with
      | b2 :: b3 :: r3 =>
        if (0x80 ≤ b2 ∧ b2 < 0xC0) ∧ (0x80 ≤ b3 ∧ b3 < 0xC0)
            ∧ (b = 0xE0 → 0xA0 ≤ b2) ∧ (b = 0xED → b2 < 0xA0) then
          (utf8Decode r3).map
            (fun t => ((b - 0xE0) * 4096 + (b2 - 0x80) * 64 + (b3 - 0x80)) :: t)
        else none
      | _ => none
    else if b < 0xF5 then
      match rest with
      | b2 :: b3 :: b4 :: r4 =>
        if (0x80 ≤ b2 ∧ b2 < 0xC0) ∧ (0x80 ≤ b3 ∧ b3 < 0xC0) ∧ (0x80 ≤ b4 ∧ b4 < 0xC0)
            ∧ (b = 0xF0 → 0x90 ≤ b2) ∧ (b = 0xF4 → b2 < 0x90) then
          (utf8Decode r4).map
            (fun t => ((b - 0xF0) * 262144 + (b2 - 0x80) * 4096
              + (b3 - 0x80) * 64 + (b4 - 0x80)) :: t)
        else none
      | _ => none
    else none

/-- Length-prefix loop of receive_message: while len(length) < 4 the code
calls recv(4) and appends WHATEVER comes back.  The adversary schedule gives
the size of each successive recv result; a recv can return at most the 4
bytes asked for and at most what the stream still holds.  Returns the
accumulated buffer, the unconsumed stream, and the unconsumed schedule, or
none when the schedule is exhausted while the loop still waits. -/
def lenPhase : List Nat → List Nat → List Nat →
    Option (List Nat × List Nat × List Nat)
  | sched, stream, acc =>
    if 4 ≤ acc.length then some (acc, stream, sched)
    else
      match sched with
      | [] => none
      | c :: sc =>
        lenPhase sc (stream.drop (min c 4)) (acc ++ stream.take (min c 4))

/-- Payload loop of receive_message: while len(data) < size the code calls
recv(size), decodes the chunk as UTF-8 and appends the characters; the
character count (not the byte count) is compared against size. -/
def dataPhase : List Nat → List Nat → List Nat → Nat → Except RecvErr (List Nat)
  | sched, stream, data, size =>
    if size ≤ data.length then .ok data
    else
      match sched with
      | [] => .error .blocked
      | c :: sc =>
        match utf8Decode (stream.take (min c size)) with
        | none => .error .unicodeError
        | some chars =>
          dataPhase sc (stream.drop (min c size)) (data ++ chars) size

/-- Model of receive_message for a raw (non-JSON) frame: run the length loop,
unpack the 4-byte prefix with struct.unpack (which raises struct.error unless
the buffer is EXACTLY 4 bytes), then run the payload loop. -/
def receive_message (sched : List Nat) (stream : List Nat) :
    Except RecvErr (List Nat) :=
  match lenPhase sched stream [] with
  | none => .error .blocked
  | some (lenBytes, stream2, sched2) =>
    if lenBytes.length = 4 then
      dataPhase sched2 stream2 [] (beVal lenBytes)
    else .error .structError

/-! ## Framing theorems -/

theorem utf8Encode_length_of_ascii (p : List Nat) (h : ∀ b ∈ p, b < 128) :
    (utf8Encode p).length = p.length := by
  induction p with
  | nil => rfl
  | cons a t ih =>
    have ha : a < 128 := h a (List.mem_cons_self a t)
    have ht : ∀ b ∈ t, b < 128 := fun b hb => h b (List.mem_cons_of_mem a hb)
    have hcons : utf8Encode (a :: t) = utf8EncodeChar a ++ utf8Encode t := rfl
    rw [hcons, List.length_append, ih ht, List.length_cons]
    simp [utf8EncodeChar, ha]
    omega

theorem beVal_structPackL (n : Nat) (h : n < 2 ^ 32) :
    ∃ pre, structPackL n = some pre ∧ beVal pre = n ∧ pre.length = 4 := by
  refine ⟨[n / 2 ^ 24 % 256, n / 2 ^ 16 % 256, n / 2 ^ 8 % 256, n % 256], ?_, ?_, rfl⟩
  · unfold structPackL
    rw [if_pos h]
  · simp only [beVal, List.foldl]
    omega

/-- Claim C1 (amended): the 4-byte big-endian prefix written by send_response
equals the CHARACTER count of the payload; for payloads made of ASCII
characters only (in particular every structured payload, whose default
serialization escapes non-ASCII) this coincides with the number of UTF-8
payload bytes that follow the prefix. -/
theorem send_prefix_counts_chars (p : List Nat)
    (hlen : p.length < 2 ^ 32) :
    ∃ pre, send_response p = some (pre, utf8Encode p)
      ∧ beVal pre = p.length
      ∧ ((∀ b ∈ p, b < 128) → beVal pre = (utf8Encode p).length) := by
  obtain ⟨pre, hpack, hval, _⟩ := beVal_structPackL p.length hlen
  refine ⟨pre, ?_, hval, ?_⟩
  · simp [send_response, hpack]
  · intro hascii
    rw [hval, utf8Encode_length_of_ascii p hascii]

theorem send_prefix_counts_chars_witness :
    ∃ pre, send_response [104, 105] = some (pre, utf8Encode [104, 105])
      ∧ beVal pre = ([104, 105] : List Nat).length
      ∧ ((∀ b ∈ ([104, 105] : List Nat), b < 128)
          → beVal pre = (utf8Encode [104, 105]).length) :=
  send_prefix_counts_chars [104, 105] (by norm_num)

/-- Claim C1 (counterexample): for the one-character payload with code point
233 (a non-ASCII character), send_response writes prefix value 1 but then
sends 2 UTF-8 bytes, so the prefix does not equal the encoded byte count. -/
theorem send_prefix_not_byte_count :
    send_response [233] = some ([0, 0, 0, 1], [195, 169])
      ∧ beVal [0, 0, 0, 1] ≠ ([195, 169] : List Nat).length := by
  constructor
  · rfl
  · decide

/-- Claim C2 (code bug): for the well-formed frame with length prefix 4 and
ASCII payload "abcd", the delivery schedule in which the first recv returns 3
bytes and the second returns 4 bytes makes the length loop accumulate 7 bytes
(recv(4) is asked for 4 more bytes although only 1 is missing), so
struct.unpack raises struct.error and the payload is never returned; an
aligned schedule on the very same frame returns the payload, which shows the
frame itself is fine. -/
theorem receive_message_overshoot_bug :
    receive_message [3, 4] ([0, 0, 0, 4] ++ [97, 98, 99, 100])
        = .error .structError
      ∧ receive_message [4, 4] ([0, 0, 0, 4] ++ [97, 98, 99, 100])
        = .ok [97, 98, 99, 100] := by
  constructor <;> rfl

/-! ## Instance marshalling: header inference
(instances_to_header_message, lines 155-182) -/

/-- Pandas column dtypes as the code distinguishes them: object, bool,
anything starting with datetime, and every other (numeric) dtype. -/
inductive DType where
  | tyObject
  | tyBool
  | tyDatetime
  | tyNumeric
deriving DecidableEq, Repr

/-- One column of a pandas DataFrame: its name, dtype, and cells top to
bottom; none models a missing value (NaN). -/
structure DFColumn where
  name : String
  dtype : DType
  cells : List (Option String)
deriving DecidableEq, Repr

/-- A pandas DataFrame: the length of its index and its columns in order. -/
structure DataFrame where
  nrows : Nat
  cols : List DFColumn
deriving DecidableEq, Repr

/-- Attribute kinds of the header descriptor. -/
inductive AttrKind where
  | NUMERIC
  | STRING
  | NOMINAL
  | DATE
deriving DecidableEq, Repr

/-- One attribute entry of the header message; values is nonempty only for
NOMINAL attributes. -/
structure AttrDesc where
  name : String
  kind : AttrKind
  values : List String
deriving DecidableEq, Repr

/-- The instances_header payload: relation name and attribute list. -/
structure HeaderMsg where
  relation_name : String
  attributes : List AttrDesc
deriving DecidableEq, Repr

/-- Model of pandas Series.unique: the distinct cell values in first-seen
order; a missing value (none) is itself one of the distinct values. -/
def uniqueFirstSeen (l : List (Option String)) : List (Option String) :=
  l.foldl (fun acc v => if v ∈ acc then acc else acc ++ [v]) []

/-- The distinct non-missing values of a column in first-seen order: the
notion the specification uses for the NOMINAL threshold. -/
def distinctNonMissing (l : List (Option String)) : List String :=
  (uniqueFirstSeen l).filterMap id

/-- Model of the per-column branch of instances_to_header_message: object and
bool dtypes start as STRING and become NOMINAL when distinct.size, which
COUNTS a missing value as a distinct entry, is strictly below num_rows / 2
(Python true division, hence the exact comparison 2 * size < num_rows); the
enumerated values then drop the entries for which is_nan holds.  Datetime
dtypes become DATE and all others NUMERIC. -/
def attrOfColumn (num_rows : Nat) (c : DFColumn) : AttrDesc :=
  if c.dtype = .tyObject ∨ c.dtype = .tyBool then
    let distinct := uniqueFirstSeen c.cells
    if 2 * distinct.length < num_rows then
      { name := c.name, kind := .NOMINAL, values := distinct.filterMap id }
    else
      { name := c.name, kind := .STRING, values := [] }
  else if c.dtype = .tyDatetime then
    { name := c.name, kind := .DATE, values := [] }
  else
    { name := c.name, kind := .NUMERIC, values := [] }

/-- Model of instances_to_header_message: relation name plus the per-column
attribute descriptors in column order. -/
def instances_to_header_message (frame_name : String) (df : DataFrame) :
    HeaderMsg :=
  { relation_name := frame_name
    attributes := df.cols.map (attrOfColumn df.nrows) }

/-- Claim C3 (counterexample): an object column with 4 rows, cells a, missing,
a, a, has exactly one distinct non-missing value, and 2 * 1 < 4, so the claim
classifies it NOMINAL; the code counts the missing value among the distinct
values (unique size 2, and 2 * 2 < 4 fails) and classifies it STRING. -/
theorem nominal_counts_missing_counterexample :
    (attrOfColumn 4 ⟨"c", .tyObject, [some "a", none, some "a", some "a"]⟩).kind
        = .STRING
      ∧ 2 * (distinctNonMissing [some "a", none, some "a", some "a"]).length
          < 4 := by
  constructor
  · rfl
  · decide

/-- Claim C3 (amended): for a textual or boolean column the header classifies
NOMINAL iff the number of distinct cell values, with a missing value counted
as one extra distinct entry when present, is strictly less than half the row
count; a NOMINAL attribute then enumerates exactly the distinct non-missing
values in first-seen order, and otherwise the column is STRING with no
enumerated values. -/
theorem nominal_iff_distinct_with_missing (num_rows : Nat) (c : DFColumn)
    (h : c.dtype = .tyObject ∨ c.dtype = .tyBool) :
    ((attrOfColumn num_rows c).kind = .NOMINAL
        ↔ 2 * (uniqueFirstSeen c.cells).length < num_rows)
      ∧ ((attrOfColumn num_rows c).kind = .NOMINAL
          → (attrOfColumn num_rows c).values = distinctNonMissing c.cells)
      ∧ ((attrOfColumn num_rows c).kind ≠ .NOMINAL
          → (attrOfColumn num_rows c).kind = .STRING
            ∧ (attrOfColumn num_rows c).values = []) := by
  simp only [attrOfColumn]
  rw [if_pos h]
  by_cases h2 : 2 * (uniqueFirstSeen c.cells).length < num_rows
  · rw [if_pos h2]
    exact ⟨by simpa [distinctNonMissing] using h2, fun _ => rfl,
      fun hne => absurd rfl hne⟩
  · rw [if_neg h2]
    refine ⟨?_, ?_, fun _ => ⟨rfl, rfl⟩⟩
    · simpa using h2
    · intro hk
      exact absurd hk (by simp)

theorem nominal_iff_distinct_with_missing_witness :
    ((attrOfColumn 5 ⟨"x", .tyObject,
          [some "a", some "a", some "b", some "b", some "c"]⟩).kind = .NOMINAL
        ↔ 2 * (uniqueFirstSeen
            [some "a", some "a", some "b", some "b", some "c"]).length < 5)
      ∧ ((attrOfColumn 5 ⟨"x", .tyObject,
            [some "a", some "a", some "b", some "b", some "c"]⟩).kind = .NOMINAL
          → (attrOfColumn 5 ⟨"x", .tyObject,
              [some "a", some "a", some "b", some "b", some "c"]⟩).values
            = distinctNonMissing
                [some "a", some "a", some "b", some "b", some "c"])
      ∧ ((attrOfColumn 5 ⟨"x", .tyObject,
            [some "a", some "a", some "b", some "b", some "c"]⟩).kind ≠ .NOMINAL
          → (attrOfColumn 5 ⟨"x", .tyObject,
              [some "a", some "a", some "b", some "b", some "c"]⟩).kind = .STRING
            ∧ (attrOfColumn 5 ⟨"x", .tyObject,
                [some "a", some "a", some "b", some "b", some "c"]⟩).values
              = []) :=
  nominal_iff_distinct_with_missing 5
    ⟨"x", .tyObject, [some "a", some "a", some "b", some "b", some "c"]⟩
    (Or.inl rfl)

/-! ## Opaque object codec
(model of the external pickle module, spec sections 1 and 4.4) -/

/-- Python values exchanged through the opaque object codec; strings are
lists of character codes. -/
inductive PyObj where
  | pyNone
  | pyBool (b : Bool)
  | pyInt (n : Int)
  | pyStr (s : List Nat)
  | pyList (xs : List PyObj)
  | pyDict (kvs : List (PyObj × PyObj))

/-- Unary byte encoding of a natural number: n ones then a zero. -/
def encNat (n : Nat) : List Nat :=
  List.replicate n 1 ++ [0]

mutual
/-- Modelled from the spec: the serialization half of the external opaque
codec (pickle.dumps), which the spec describes only as turning an arbitrary
in-process value into a byte sequence with an inverse; modelled as a
concrete tagged byte encoding. -/
def encP : PyObj → List Nat
  | .pyNone => [3]
  | .pyBool b => [4, cond b 1 0]
  | .pyInt n => [5, if n < 0 then 1 else 0] ++ encNat n.natAbs
  | .pyStr s => 6 :: encChars s
  | .pyList xs => 7 :: encPList xs
  | .pyDict kvs => 9 :: encPKVs kvs

/-- Byte encoding of a character-code list: each code in unary, then the
terminator byte 2. -/
def encChars : List Nat → List Nat
  | [] => [2]
  | c :: t => encNat c ++ encChars t

/-- Byte encoding of a value list: the encoded elements, then the terminator
byte 8. -/
def encPList : List PyObj → List Nat
  | [] => [8]
  | v :: t => encP v ++ encPList t

/-- Byte encoding of dictionary entries: each key then value, then the
terminator byte 8. -/
def encPKVs : List (PyObj × PyObj) → List Nat
  | [] => [8]
  | (k, v) :: t => encP k ++ encP v ++ encPKVs t
end

/-- Decoder for the unary number encoding, returning the unconsumed tail. -/
def decNat : List Nat → Option (Nat × List Nat)
  | 0 :: r => some (0, r)
  | 1 :: r =>
    match decNat r with
    | some (n, r2) => some (n + 1, r2)
    | none => none
  | _ => none

mutual
/-- Modelled from the spec: the deserialization half of the external opaque
codec (pickle.loads), decoding one tagged value and returning the unconsumed
tail; fuelled to make the recursion structural. -/
def decP : Nat → List Nat → Option (PyObj × List Nat)
  | 0, _ => none
  | _ + 1, 3 :: r => some (.pyNone, r)
  | _ + 1, 4 :: b :: r =>
    if b = 0 then some (.pyBool false, r)
    else if b = 1 then some (.pyBool true, r)
    else none
  | _ + 1, 5 :: sgn :: r =>
    match decNat r with
    | some (n, r2) =>
      if sgn = 0 then some (.pyInt (n : Int), r2)
      else if sgn = 1 then some (.pyInt (-(n : Int)), r2)
      else none
    | none => none
  | f + 1, 6 :: r =>
    match decChars f r with
    | some (s, r2) => some (.pyStr s, r2)
    | none => none
  | f + 1, 7 :: r =>
    match decPList f r with
    | some (xs, r2) => some (.pyList xs, r2)
    | none => none
  | f + 1, 9 :: r =>
    match decPKVs f r with
    | some (kvs, r2) => some (.pyDict kvs, r2)
    | none => none
  | _ + 1, _ => none

/-- Decoder for character-code lists ended by the terminator byte 2. -/
def decChars : Nat → List Nat → Option (List Nat × List Nat)
  | 0, _ => none
  | _ + 1, [] => none
  | f + 1, b :: r =>
    if b = 2 then some ([], r)
    else
      match decNat (b :: r) with
      | some (c, r2) =>
        match decChars f r2 with
        | some (s, r3) => some (c :: s, r3)
        | none => none
      | none => none

/-- Decoder for value lists ended by the terminator byte 8. -/
def decPList : Nat → List Nat → Option (List PyObj × List Nat)
  | 0, _ => none
  | _ + 1, [] => none
  | f + 1, b :: r =>
    if b = 8 then some ([], r)
    else
      match decP f (b :: r) with
      | some (v, r2) =>
        match decPList f r2 with
        | some (xs, r3) => some (v :: xs, r3)
        | none => none
      | none => none

/-- Decoder for dictionary entry lists ended by the terminator byte 8. -/
def decPKVs : Nat → List Nat → Option (List (PyObj × PyObj) × List Nat)
  | 0, _ => none
  | _ + 1, [] => none
  | f + 1, b :: r =>
    if b = 8 then some ([], r)
    else
      match decP f (b :: r) with
      | some (k, r2) =>
        match decP f r2 with
        | some (v, r3) =>
          match decPKVs f r3 with
          | some (kvs, r4) => some ((k, v) :: kvs, r4)
          | none => none
        | none => none
      | none => none
end

/-- Fuel budget sufficient to decode the encoding of a value. -/
def costChars : List Nat → Nat
  | [] => 1
  | _ :: t => 1 + costChars t

mutual
/-- Fuel budget sufficient to decode the encoding of a value. -/
def costP : PyObj → Nat
  | .pyNone => 1
  | .pyBool _ => 1
  | .pyInt _ => 1
  | .pyStr s => 1 + costChars s
  | .pyList xs => 1 + costPList xs
  | .pyDict kvs => 1 + costPKVs kvs

/-- Fuel budget sufficient to decode an encoded value list. -/
def costPList : List PyObj → Nat
  | [] => 1
  | v :: t => 1 + costP v + costPList t

/-- Fuel budget sufficient to decode encoded dictionary entries. -/
def costPKVs : List (PyObj × PyObj) → Nat
  | [] => 1
  | (k, v) :: t => 1 + costP k + costP v + costPKVs t
end

theorem one_le_costP (v : PyObj) : 1 ≤ costP v := by
  cases v <;> simp [costP]

theorem one_le_costChars (s : List Nat) : 1 ≤ costChars s := by
  cases s <;> simp [costChars]

theorem one_le_costPList (xs : List PyObj) : 1 ≤ costPList xs := by
  cases xs with
  | nil => simp [costPList]
  | cons v t => simp only [costPList]; omega

theorem one_le_costPKVs (kvs : List (PyObj × PyObj)) : 1 ≤ costPKVs kvs := by
  cases kvs with
  | nil => simp [costPKVs]
  | cons kv t => obtain ⟨k, v⟩ := kv; simp only [costPKVs]; omega

theorem decNat_encNat (n : Nat) (rest : List Nat) :
    decNat (encNat n ++ rest) = some (n, rest) := by
  induction n with
  | zero => rfl
  | succ m ih =>
    have h : encNat (m + 1) ++ rest = 1 :: (encNat m ++ rest) := by
      simp [encNat, List.replicate_succ]
    rw [h]
    simp only [decNat, ih]

theorem decP_int (f sgn m : Nat) (R : List Nat) :
    decP (f + 1) (5 :: sgn :: (encNat m ++ R))
      = if sgn = 0 then some (.pyInt (m : Int), R)
        else if sgn = 1 then some (.pyInt (-(m : Int)), R) else none := by
  simp only [decP, decNat_encNat]

theorem encP_head (v : PyObj) : ∃ b tl, encP v = b :: tl ∧ b ≠ 8 := by
  cases v with
  | pyNone => exact ⟨3, [], rfl, by decide⟩
  | pyBool b => exact ⟨4, [cond b 1 0], rfl, by decide⟩
  | pyInt n => exact ⟨5, (if n < 0 then 1 else 0) :: encNat n.natAbs, rfl, by decide⟩
  | pyStr s => exact ⟨6, encChars s, rfl, by decide⟩
  | pyList xs => exact ⟨7, encPList xs, rfl, by decide⟩
  | pyDict kvs => exact ⟨9, encPKVs kvs, rfl, by decide⟩

theorem dec_enc_all : ∀ f : Nat,
    (∀ v rest, costP v ≤ f → decP f (encP v ++ rest) = some (v, rest))
    ∧ (∀ s rest, costChars s ≤ f → decChars f (encChars s ++ rest) = some (s, rest))
    ∧ (∀ xs rest, costPList xs ≤ f →
        decPList f (encPList xs ++ rest) = some (xs, rest))
    ∧ (∀ kvs rest, costPKVs kvs ≤ f →
        decPKVs f (encPKVs kvs ++ rest) = some (kvs, rest)) := by
  intro f
  induction f with
  | zero =>
    refine ⟨fun v _ hc => ?_, fun s _ hc => ?_, fun xs _ hc => ?_,
      fun kvs _ hc => ?_⟩
    · exact absurd hc (by have := one_le_costP v; omega)
    · exact absurd hc (by have := one_le_costChars s; omega)
    · exact absurd hc (by have := one_le_costPList xs; omega)
    · exact absurd hc (by have := one_le_costPKVs kvs; omega)
  | succ f ih =>
    obtain ⟨ihP, ihC, ihL, ihK⟩ := ih
    refine ⟨?_, ?_, ?_, ?_⟩
    · intro v rest hc
      cases v with
      | pyNone => rfl
      | pyBool b => cases b <;> rfl
      | pyInt n =>
        by_cases hn : n < 0
        · have ha : (-(n.natAbs : Int)) = n := by omega
          have he : encP (.pyInt n) ++ rest
              = 5 :: 1 :: (encNat n.natAbs ++ rest) := by simp [encP, hn]
          rw [he, decP_int, if_neg (by decide), if_pos rfl, ha]
        · have ha : ((n.natAbs : Int)) = n := by omega
          have he : encP (.pyInt n) ++ rest
              = 5 :: 0 :: (encNat n.natAbs ++ rest) := by simp [encP, hn]
          rw [he, decP_int, if_pos rfl, ha]
      | pyStr s =>
        have hcost : costChars s ≤ f := by simp [costP] at hc; omega
        have he : encP (.pyStr s) ++ rest = 6 :: (encChars s ++ rest) := by
          simp [encP]
        rw [he]
        simp only [decP, ihC s rest hcost]
      | pyList xs =>
        have hcost : costPList xs ≤ f := by simp [costP] at hc; omega
        have he : encP (.pyList xs) ++ rest = 7 :: (encPList xs ++ rest) := by
          simp [encP]
        rw [he]
        simp only [decP, ihL xs rest hcost]
      | pyDict kvs =>
        have hcost : costPKVs kvs ≤ f := by simp [costP] at hc; omega
        have he : encP (.pyDict kvs) ++ rest = 9 :: (encPKVs kvs ++ rest) := by
          simp [encP]
        rw [he]
        simp only [decP, ihK kvs rest hcost]
    · intro s rest hc
      cases s with
      | nil => rfl
      | cons c t =>
        have hct : costChars t ≤ f := by simp [costChars] at hc; omega
        cases c with
        | zero =>
          have he : encChars (0 :: t) ++ rest = 0 :: (encChars t ++ rest) := by
            simp [encChars, encNat]
          rw [he]
          simp only [decChars]
          rw [if_neg (by decide)]
          simp only [decNat, ihC t rest hct]
        | succ m =>
          have he : encChars ((m + 1) :: t) ++ rest
              = 1 :: (encNat m ++ (encChars t ++ rest)) := by
            simp [encChars, encNat, List.replicate_succ]
          rw [he]
          simp only [decChars]
          rw [if_neg (by decide)]
          have hd : decNat (1 :: (encNat m ++ (encChars t ++ rest)))
              = some (m + 1, encChars t ++ rest) := by
            simp only [decNat, decNat_encNat]
          rw [hd]
          simp only [ihC t rest hct]
    · intro xs rest hc
      cases xs with
      | nil => rfl
      | cons v t =>
        simp only [costPList] at hc
        have hcv : costP v ≤ f := by omega
        have hct : costPList t ≤ f := by omega
        obtain ⟨b, tl, hb, hb8⟩ := encP_head v
        have he : encPList (v :: t) ++ rest
            = b :: (tl ++ (encPList t ++ rest)) := by simp [encPList, hb]
        rw [he]
        simp only [decPList]
        rw [if_neg hb8]
        have hback : b :: (tl ++ (encPList t ++ rest))
            = encP v ++ (encPList t ++ rest) := by rw [hb]; rfl
        rw [hback, ihP v _ hcv]
        simp only [ihL t rest hct]
    · intro kvs rest hc
      cases kvs with
      | nil => rfl
      | cons kv t =>
        obtain ⟨k, v⟩ := kv
        simp only [costPKVs] at hc
        have hck : costP k ≤ f := by omega
        have hcv : costP v ≤ f := by omega
        have hct : costPKVs t ≤ f := by omega
        obtain ⟨b, tl, hb, hb8⟩ := encP_head k
        have he : encPKVs ((k, v) :: t) ++ rest
            = b :: (tl ++ (encP v ++ (encPKVs t ++ rest))) := by
          simp [encPKVs, hb]
        rw [he]
        simp only [decPKVs]
        rw [if_neg hb8]
        have hback : b :: (tl ++ (encP v ++ (encPKVs t ++ rest)))
            = encP k ++ (encP v ++ (encPKVs t ++ rest)) := by rw [hb]; rfl
        rw [hback, ihP k _ hck]
        simp only [ihP v (encPKVs t ++ rest) hcv, ihK t rest hct]

theorem decP_encP (v : PyObj) (rest : List Nat) (f : Nat) (h : costP v ≤ f) :
    decP f (encP v ++ rest) = some (v, rest) :=
  (dec_enc_all f).1 v rest h

theorem costChars_le (s : List Nat) :
    costChars s ≤ 2 * (encChars s).length := by
  induction s with
  | nil => simp [costChars, encChars]
  | cons c t ih =>
    simp only [costChars, encChars, encNat, List.length_append,
      List.length_replicate, List.length_cons, List.length_nil] at *
    omega

mutual
theorem costP_le : ∀ v : PyObj, costP v + 1 ≤ 2 * (encP v).length
  | .pyNone => by simp [costP, encP]
  | .pyBool b => by simp [costP, encP]
  | .pyInt n => by
    simp only [costP, encP, encNat, List.length_append, List.length_cons,
      List.length_replicate, List.length_nil]
    omega
  | .pyStr s => by
    have h := costChars_le s
    simp only [costP, encP, List.length_cons]
    omega
  | .pyList xs => by
    have h := costPList_le xs
    simp only [costP, encP, List.length_cons]
    omega
  | .pyDict kvs => by
    have h := costPKVs_le kvs
    simp only [costP, encP, List.length_cons]
    omega

theorem costPList_le : ∀ xs : List PyObj,
    costPList xs ≤ 2 * (encPList xs).length
  | [] => by simp [costPList, encPList]
  | v :: t => by
    have h1 := costP_le v
    have h2 := costPList_le t
    simp only [costPList, encPList, List.length_append]
    omega

theorem costPKVs_le : ∀ kvs : List (PyObj × PyObj),
    costPKVs kvs ≤ 2 * (encPKVs kvs).length
  | [] => by simp [costPKVs, encPKVs]
  | (k, v) :: t => by
    have h1 := costP_le k
    have h2 := costP_le v
    have h3 := costPKVs_le t
    simp only [costPKVs, encPKVs, List.length_append]
    omega
end

/-! ## Base64 text carrier (base64_encode and base64_decode, lines 299-311,
wrappers around the standard base64 codec) -/

/-- The base64 alphabet character for a 6-bit value. -/
def b64Char (n : Nat) : Nat :=
  if n < 26 then 65 + n
  else if n < 52 then 97 + (n - 26)
  else if n < 62 then 48 + (n - 52)
  else if n = 62 then 43
  else 47

/-- Partial inverse of the base64 alphabet. -/
def b64Inv (c : Nat) : Option Nat :=
  if 65 ≤ c ∧ c ≤ 90 then some (c - 65)
  else if 97 ≤ c ∧ c ≤ 122 then some (26 + (c - 97))
  else if 48 ≤ c ∧ c ≤ 57 then some (52 + (c - 48))
  else if c = 43 then some 62
  else if c = 47 then some 63
  else none

/-- Standard base64 encoding of a byte list into the character codes of the
portable text, with padding character 61. -/
def base64EncodeBytes : List Nat → List Nat
  | [] => []
  | [a] => [b64Char (a / 4), b64Char (a % 4 * 16), 61, 61]
  | [a, b] =>
    [b64Char (a / 4), b64Char (a % 4 * 16 + b / 16), b64Char (b % 16 * 4), 61]
  | a :: b :: c :: rest =>
    b64Char (a / 4) :: b64Char (a % 4 * 16 + b / 16)
      :: b64Char (b % 16 * 4 + c / 64) :: b64Char (c % 64)
      :: base64EncodeBytes rest

/-- Standard base64 decoding of four-character groups back into bytes;
rejects inputs whose length is not a multiple of four or whose padding is
misplaced. -/
def b64DecodeGroups : List Nat → Option (List Nat)
  | [] => some []
  | c1 :: c2 :: c3 :: c4 :: rest =>
    if rest.isEmpty ∧ c4 = 61 then
      match b64Inv c1, b64Inv c2 with
      | some n1, some n2 =>
        if c3 = 61 then some [n1 * 4 + n2 / 16]
        else
          match b64Inv c3 with
          | some n3 => some [n1 * 4 + n2 / 16, n2 % 16 * 16 + n3 / 4]
          | none => none
      | _, _ => none
    else
      match b64Inv c1, b64Inv c2, b64Inv c3, b64Inv c4 with
      | some n1, some n2, some n3, some n4 =>
        match b64DecodeGroups rest with
        | some tail =>
          some ((n1 * 4 + n2 / 16) :: (n2 % 16 * 16 + n3 / 4)
            :: (n3 % 4 * 64 + n4) :: tail)
        | none => none
      | _, _, _, _ => none
  | _ => none

/-- Model of base64_encode: serialize bytes to the portable text carrier. -/
def base64_encode (value : List Nat) : List Nat :=
  base64EncodeBytes value

/-- Model of base64_decode: the standard decoder first discards characters
outside the alphabet and padding (the default non-validating behaviour),
then decodes; a malformed remainder raises binascii.Error (here: none). -/
def base64_decode (value : List Nat) : Option (List Nat) :=
  b64DecodeGroups (value.filter (fun c => (b64Inv c).isSome || c == 61))

theorem b64Inv_b64Char : ∀ n : Nat, n < 64 →
    b64Inv (b64Char n) = some n ∧ b64Char n ≠ 61 := by
  decide

theorem base64EncodeBytes_alphabet : ∀ bs : List Nat, (∀ b ∈ bs, b < 256) →
    ∀ c ∈ base64EncodeBytes bs, (b64Inv c).isSome = true ∨ c = 61
  | [] => by intro _ c hc; simp [base64EncodeBytes] at hc
  | [a] => by
    intro h c hc
    have ha : a < 256 := h a (by simp)
    simp only [base64EncodeBytes, List.mem_cons, List.not_mem_nil,
      or_false] at hc
    rcases hc with rfl | rfl | rfl | rfl
    · exact Or.inl (by rw [(b64Inv_b64Char _ (by omega)).1]; rfl)
    · exact Or.inl (by rw [(b64Inv_b64Char _ (by omega)).1]; rfl)
    · exact Or.inr rfl
    · exact Or.inr rfl
  | [a, b] => by
    intro h c hc
    have ha : a < 256 := h a (by simp)
    have hb : b < 256 := h b (by simp)
    simp only [base64EncodeBytes, List.mem_cons, List.not_mem_nil,
      or_false] at hc
    rcases hc with rfl | rfl | rfl | rfl
    · exact Or.inl (by rw [(b64Inv_b64Char _ (by omega)).1]; rfl)
    · exact Or.inl (by rw [(b64Inv_b64Char _ (by omega)).1]; rfl)
    · exact Or.inl (by rw [(b64Inv_b64Char _ (by omega)).1]; rfl)
    · exact Or.inr rfl
  | a :: b :: c0 :: rest => by
    intro h c hc
    have ha : a < 256 := h a (by simp)
    have hb : b < 256 := h b (by simp)
    have hc0 : c0 < 256 := h c0 (by simp)
    have hrest : ∀ x ∈ rest, x < 256 := fun x hx => h x (by simp [hx])
    simp only [base64EncodeBytes, List.mem_cons] at hc
    rcases hc with rfl | rfl | rfl | rfl | hmem
    · exact Or.inl (by rw [(b64Inv_b64Char _ (by omega)).1]; rfl)
    · exact Or.inl (by rw [(b64Inv_b64Char _ (by omega)).1]; rfl)
    · exact Or.inl (by rw [(b64Inv_b64Char _ (by omega)).1]; rfl)
    · exact Or.inl (by rw [(b64Inv_b64Char _ (by omega)).1]; rfl)
    · exact base64EncodeBytes_alphabet rest hrest c hmem

theorem b64DecodeGroups_encode : ∀ bs : List Nat, (∀ b ∈ bs, b < 256) →
    b64DecodeGroups (base64EncodeBytes bs) = some bs
  | [] => fun _ => rfl
  | [a] => by
    intro h
    have ha : a < 256 := h a (by simp)
    have h1 := b64Inv_b64Char (a / 4) (by omega)
    have h2 := b64Inv_b64Char (a % 4 * 16) (by omega)
    simp only [base64EncodeBytes, b64DecodeGroups, List.isEmpty_nil,
      true_and, if_pos rfl, h1.1, h2.1]
    simp
    omega
  | [a, b] => by
    intro h
    have ha : a < 256 := h a (by simp)
    have hb : b < 256 := h b (by simp)
    have h1 := b64Inv_b64Char (a / 4) (by omega)
    have h2 := b64Inv_b64Char (a % 4 * 16 + b / 16) (by omega)
    have h3 := b64Inv_b64Char (b % 16 * 4) (by omega)
    simp only [base64EncodeBytes, b64DecodeGroups, List.isEmpty_nil,
      true_and, if_pos rfl, h1.1, h2.1, h3.1]
    simp [h3.2]
    constructor <;> omega
  | a :: b :: c :: rest => by
    intro h
    have ha : a < 256 := h a (by simp)
    have hb : b < 256 := h b (by simp)
    have hcc : c < 256 := h c (by simp)
    have hrest : ∀ x ∈ rest, x < 256 := fun x hx => h x (by simp [hx])
    have h1 := b64Inv_b64Char (a / 4) (by omega)
    have h2 := b64Inv_b64Char (a % 4 * 16 + b / 16) (by omega)
    have h3 := b64Inv_b64Char (b % 16 * 4 + c / 64) (by omega)
    have h4 := b64Inv_b64Char (c % 64) (by omega)
    have ih := b64DecodeGroups_encode rest hrest
    simp only [base64EncodeBytes, b64DecodeGroups]
    rw [if_neg (fun hand => h4.2 hand.2)]
    simp only [h1.1, h2.1, h3.1, h4.1, ih]
    have e1 : a / 4 * 4 + (a % 4 * 16 + b / 16) / 16 = a := by omega
    have e2 : (a % 4 * 16 + b / 16) % 16 * 16 + (b % 16 * 4 + c / 64) / 4 = b := by
      omega
    have e3 : (b % 16 * 4 + c / 64) % 4 * 64 + c % 64 = c := by omega
    rw [e1, e2, e3]

/-- Round trip of the base64 text carrier: decoding the encoding of any byte
list returns exactly those bytes. -/
theorem base64_roundtrip (bs : List Nat) (h : ∀ b ∈ bs, b < 256) :
    base64_decode (base64_encode bs) = some bs := by
  unfold base64_decode base64_encode
  rw [List.filter_eq_self.mpr ?_]
  · exact b64DecodeGroups_encode bs h
  · intro c hc
    rcases base64EncodeBytes_alphabet bs h c hc with h1 | h1
    · simp [h1]
    · simp [h1]

/-! ## Environment values -/

/-- The header dictionary received with put_instances; the code stores the
whole dictionary but only ever reads its frame_name entry, which is the only
field modelled. -/
structure ReqHeader where
  frame_name : String
deriving DecidableEq, Repr

/-- A value stored in the worker environment _local_env: an arbitrary Python
object (from pickle or scripts), a pandas DataFrame (from put_instances), or
the headers dictionary installed at startup. -/
inductive Value where
  | obj (o : PyObj)
  | table (df : DataFrame)
  | headersDict (hs : List (String × ReqHeader))

/-- Byte encoding of a Lean string through its character codes. -/
def encStr (s : String) : List Nat :=
  encChars (s.data.map Char.toNat)

/-- Byte encoding of an optional string (a possibly missing cell). -/
def encOptStr : Option String → List Nat
  | none => [0]
  | some s => 1 :: encStr s

/-- Byte encoding of a cell list, ended by the terminator byte 8. -/
def encCells : List (Option String) → List Nat
  | [] => [8]
  | x :: t => encOptStr x ++ encCells t

/-- Tag byte of a column dtype. -/
def dtypeByte : DType → Nat
  | .tyObject => 0
  | .tyBool => 1
  | .tyDatetime => 2
  | .tyNumeric => 3

/-- Byte encoding of one DataFrame column. -/
def encCol (c : DFColumn) : List Nat :=
  encStr c.name ++ dtypeByte c.dtype :: encCells c.cells

/-- Byte encoding of a column list, ended by the terminator byte 8. -/
def encCols : List DFColumn → List Nat
  | [] => [8]
  | c :: t => encCol c ++ encCols t

/-- Byte encoding of a DataFrame. -/
def encTable (df : DataFrame) : List Nat :=
  encNat df.nrows ++ encCols df.cols

/-- Byte encoding of the headers dictionary, ended by the terminator 8. -/
def encHeaders : List (String × ReqHeader) → List Nat
  | [] => [8]
  | (k, h) :: t => encStr k ++ encStr h.frame_name ++ encHeaders t

/-- Modelled from the spec: pickle.dumps on an arbitrary environment value
(the opaque codec turns any in-process value into bytes); a tag selects the
value family. -/
def pickleDumps : Value → List Nat
  | .obj o => 10 :: encP o
  | .table df => 11 :: encTable df
  | .headersDict hs => 12 :: encHeaders hs

/-- Decoder for string encodings. -/
def decStr (f : Nat) (bs : List Nat) : Option (String × List Nat) :=
  match decChars f bs with
  | some (cs, r) => some (String.mk (cs.map Char.ofNat), r)
  | none => none

/-- Decoder for optional-string encodings. -/
def decOptStr (f : Nat) : List Nat → Option (Option String × List Nat)
  | 0 :: r => some (none, r)
  | 1 :: r =>
    match decStr f r with
    | some (s, r2) => some (some s, r2)
    | none => none
  | _ => none

/-- Decoder for cell-list encodings. -/
def decCells : Nat → List Nat → Option (List (Option String) × List Nat)
  | 0, _ => none
  | _ + 1, [] => none
  | f + 1, b :: r =>
    if b = 8 then some ([], r)
    else
      match decOptStr f (b :: r) with
      | some (x, r2) =>
        match decCells f r2 with
        | some (xs, r3) => some (x :: xs, r3)
        | none => none
      | none => none

/-- Decoder for dtype tag bytes. -/
def decDTypeByte (d : Nat) : Option DType :=
  if d = 0 then some .tyObject
  else if d = 1 then some .tyBool
  else if d = 2 then some .tyDatetime
  else if d = 3 then some .tyNumeric
  else none

/-- Decoder for one encoded column. -/
def decCol (f : Nat) (bs : List Nat) : Option (DFColumn × List Nat) :=
  match decStr f bs with
  | some (nm, r2) =>
    match r2 with
    | d :: r3 =>
      match decDTypeByte d with
      | some dt =>
        match decCells f r3 with
        | some (cells, r4) => some (⟨nm, dt, cells⟩, r4)
        | none => none
      | none => none
    | [] => none
  | none => none

/-- Decoder for column-list encodings. -/
def decCols : Nat → List Nat → Option (List DFColumn × List Nat)
  | 0, _ => none
  | _ + 1, [] => none
  | f + 1, b :: r =>
    if b = 8 then some ([], r)
    else
      match decCol f (b :: r) with
      | some (c, r2) =>
        match decCols f r2 with
        | some (cs, r3) => some (c :: cs, r3)
        | none => none
      | none => none

/-- Decoder for DataFrame encodings. -/
def decTable (f : Nat) (bs : List Nat) : Option (DataFrame × List Nat) :=
  match decNat bs with
  | some (n, r2) =>
    match decCols f r2 with
    | some (cs, r3) => some (⟨n, cs⟩, r3)
    | none => none
  | none => none

/-- Decoder for headers-dictionary encodings. -/
def decHeaders : Nat → List Nat → Option (List (String × ReqHeader) × List Nat)
  | 0, _ => none
  | _ + 1, [] => none
  | f + 1, b :: r =>
    if b = 8 then some ([], r)
    else
      match decStr f (b :: r) with
      | some (k, r2) =>
        match decStr f r2 with
        | some (fn, r3) =>
          match decHeaders f r3 with
          | some (hs, r4) => some ((k, ⟨fn⟩) :: hs, r4)
          | none => none
        | none => none
      | none => none

/-- Decoder for one tagged value encoding. -/
def decVal : Nat → List Nat → Option (Value × List Nat)
  | 0, _ => none
  | f + 1, 10 :: r =>
    match decP f r with
    | some (o, r2) => some (.obj o, r2)
    | none => none
  | f + 1, 11 :: r =>
    match decTable f r with
    | some (df, r2) => some (.table df, r2)
    | none => none
  | f + 1, 12 :: r =>
    match decHeaders f r with
    | some (hs, r2) => some (.headersDict hs, r2)
    | none => none
  | _ + 1, _ => none

/-- Modelled from the spec: pickle.loads, the inverse of the opaque codec;
fails (raises, here: none) on bytes that are not a complete encoding. -/
def pickleLoads (bs : List Nat) : Option Value :=
  match decVal (2 * bs.length) bs with
  | some (v, []) => some v
  | _ => none

theorem pickleLoads_pickleDumps_obj (o : PyObj) :
    pickleLoads (pickleDumps (Value.obj o)) = some (Value.obj o) := by
  have hc : costP o ≤ 2 * (encP o).length + 1 := by
    have := costP_le o
    omega
  have hd : decP (2 * (encP o).length + 1) (encP o ++ []) = some (o, []) :=
    decP_encP o [] _ hc
  rw [List.append_nil] at hd
  show pickleLoads (10 :: encP o) = some (.obj o)
  unfold pickleLoads
  have hlen : 2 * (10 :: encP o).length = 2 * (encP o).length + 1 + 1 := by
    simp only [List.length_cons]
    omega
  rw [hlen]
  simp only [decVal, hd]

/-! ## Byte-range bounds of the codec output (needed for the base64 carrier) -/

theorem encNat_lt (n : Nat) : ∀ b ∈ encNat n, b < 256 := by
  intro b hb
  simp only [encNat, List.mem_append, List.mem_replicate, List.mem_singleton] at hb
  rcases hb with ⟨_, rfl⟩ | rfl <;> omega

theorem encChars_lt (s : List Nat) : ∀ b ∈ encChars s, b < 256 := by
  induction s with
  | nil => intro b hb; simp [encChars] at hb; omega
  | cons c t ih =>
    intro b hb
    simp only [encChars, List.mem_append] at hb
    rcases hb with hb | hb
    · exact encNat_lt c b hb
    · exact ih b hb

mutual
theorem encP_lt : ∀ v : PyObj, ∀ b ∈ encP v, b < 256
  | .pyNone => by intro b hb; simp [encP] at hb; omega
  | .pyBool bb => by
    intro b hb
    simp only [encP, List.mem_cons, List.not_mem_nil, or_false] at hb
    rcases hb with rfl | rfl
    · omega
    · cases bb <;> simp
  | .pyInt n => by
    intro b hb
    simp only [encP, List.cons_append, List.mem_cons] at hb
    rcases hb with rfl | rfl | hb
    · omega
    · split <;> omega
    · exact encNat_lt n.natAbs b (by simpa using hb)
  | .pyStr s => by
    intro b hb
    simp only [encP, List.mem_cons] at hb
    rcases hb with rfl | hb
    · omega
    · exact encChars_lt s b hb
  | .pyList xs => by
    intro b hb
    simp only [encP, List.mem_cons] at hb
    rcases hb with rfl | hb
    · omega
    · exact encPList_lt xs b hb
  | .pyDict kvs => by
    intro b hb
    simp only [encP, List.mem_cons] at hb
    rcases hb with rfl | hb
    · omega
    · exact encPKVs_lt kvs b hb

theorem encPList_lt : ∀ xs : List PyObj, ∀ b ∈ encPList xs, b < 256
  | [] => by intro b hb; simp [encPList] at hb; omega
  | v :: t => by
    intro b hb
    simp only [encPList, List.mem_append] at hb
    rcases hb with hb | hb
    · exact encP_lt v b hb
    · exact encPList_lt t b hb

theorem encPKVs_lt : ∀ kvs : List (PyObj × PyObj), ∀ b ∈ encPKVs kvs, b < 256
  | [] => by intro b hb; simp [encPKVs] at hb; omega
  | (k, v) :: t => by
    intro b hb
    simp only [encPKVs, List.append_assoc, List.mem_append] at hb
    rcases hb with hb | hb | hb
    · exact encP_lt k b hb
    · exact encP_lt v b hb
    · exact encPKVs_lt t b hb
end

theorem pickleDumps_obj_lt (o : PyObj) : ∀ b ∈ pickleDumps (Value.obj o), b < 256 := by
  intro b hb
  simp only [pickleDumps, List.mem_cons] at hb
  rcases hb with rfl | hb
  · omega
  · exact encP_lt o b hb

/-! ## Messages, responses and server state (runServer, lines 45-84) -/

/-- A decoded structured message: the fields the handlers read, each one
optional to mirror key presence in the JSON document; variable_value carries
the portable text as character codes and debug defaults to false as in
message_debug. -/
structure Message where
  command : Option String := none
  frame_name : Option String := none
  header : Option ReqHeader := none
  num_instances : Option Nat := none
  script : Option String := none
  variable_name : Option String := none
  variable_value : Option (List Nat) := none
  variable_encoding : Option String := none
  debug : Bool := false

/-- Model of message_debug: the debug field when present, otherwise false. -/
def message_debug (m : Message) : Bool :=
  m.debug

/-- The variable_value payload of a get_variable_value response: portable
text for the pickled encoding, the value embedded as-is for json (the outer
serialization is abstracted), or a display string. -/
inductive WireVal where
  | wtext (t : List Nat)
  | wjson (v : Value)
  | wstr (s : String)

/-- One frame sent to the host, discriminated by payload shape. -/
inductive Response where
  | ack_ok
  | ack_err (error_message : String)
  | pid_response (pid : Nat)
  | instances_hdr (num_instances : Nat) (header : HeaderMsg)
  | raw (data : String)
  | ok_script (script_out script_error : String)
  | ok_debug (std_out std_err : String)
  | ok_var_set (variable_name : String) (variable_exists : Bool)
  | ok_var_value (variable_name variable_encoding : String)
      (variable_value : WireVal)

/-- The mutable process state: _local_env, the two capture buffers installed
as sys.stdout and sys.stderr, and the startup debug flag. -/
structure ServerState where
  env : List (String × Value)
  outBuf : String
  errBuf : String
  startupDebug : Bool

/-- Uncaught Python exceptions that escape a handler and end the protocol
loop (spec section 7, FatalIOError-like terminations), plus a marker for a
receive that would block with no data pending. -/
inductive PyErr where
  | attributeError
  | keyError
  | typeError
  | binasciiError
  | unpicklingError
  | recvBlocked
deriving DecidableEq, Repr

/-- Result of handling one message: the frames sent (in order) before any
crash, the state afterwards, the escaped exception if any, and whether the
loop keeps running (false after shutdown or a crash). -/
structure Step where
  sent : List Response
  st : ServerState
  crash : Option PyErr
  keepRunning : Bool

/-- Python dict lookup on the environment. -/
def lookupEnv : List (String × Value) → String → Option Value
  | [], _ => none
  | (k, v) :: t, n => if k = n then some v else lookupEnv t n

/-- Python dict assignment on the environment: replace in place, else
append. -/
def setEnv : List (String × Value) → String → Value → List (String × Value)
  | [], n, v => [(n, v)]
  | (k, w) :: t, n, v =>
    if k = n then (n, v) :: t else (k, w) :: setEnv t n v

/-- Python dict assignment on the headers dictionary. -/
def setHeaders : List (String × ReqHeader) → String → ReqHeader →
    List (String × ReqHeader)
  | [], n, h => [(n, h)]
  | (k, w) :: t, n, h =>
    if k = n then (n, h) :: t else (k, w) :: setHeaders t n h

/-- Model of get_variable: the stored value, or none for absent names (the
code returns Python None). -/
def get_variable (st : ServerState) (var_name : String) : Option Value :=
  lookupEnv st.env var_name

/-- Append text to the currently installed stdout capture buffer (a print
while sys.stdout is redirected). -/
def pushOut (st : ServerState) (s : String) : ServerState :=
  { st with outBuf := st.outBuf ++ s }

/-- Display rendering of print(response) for debug logging; the exact
rendering of the external repr is abstracted and no claim depends on it. -/
def showResponse : Response → String
  | .ack_ok => "ok"
  | .ack_err m => "error " ++ m
  | .pid_response p => "pid " ++ toString p
  | .instances_hdr n h => "instances_header " ++ toString n ++ " " ++ h.relation_name
  | .raw d => d
  | .ok_script o e => "ok " ++ o ++ e
  | .ok_debug o e => "ok " ++ o ++ e
  | .ok_var_set n b => "ok " ++ n ++ " " ++ toString b
  | .ok_var_value n e _ => "ok " ++ n ++ " " ++ e

/-- Display rendering of print(frame.info(), chr(10)); frame.info writes an
information block to the redirected stdout and returns None, so a None and a
blank line follow; the block content is abstracted and no claim depends on
it. -/
def frameInfoText (df : DataFrame) : String :=
  "DataFrame with " ++ toString df.nrows ++ " rows\nNone \n\n"

/-- The CSV quote character (single quote). -/
def quoteCh : Char := Char.ofNat 39

/-- Whether a cell needs quoting under minimal quoting. -/
def csvNeedsQuote (s : String) : Bool :=
  s.any (fun c => c == ',' || c == quoteCh || c == '\n')

/-- Model of the external pandas to_csv cell rendering with quote character
single quote, escape character backslash and missing token question mark;
the exact quoting policy is approximated and no claim depends on it. -/
def csvCell : Option String → String
  | none => "?"
  | some s =>
    if csvNeedsQuote s then
      String.mk (quoteCh :: (s.data.map
        (fun c => if c == quoteCh then [quoteCh, quoteCh] else [c])).flatten
        ++ [quoteCh])
    else s

/-- One CSV row of a DataFrame (cells joined by commas). -/
def csvRow (df : DataFrame) (i : Nat) : String :=
  String.intercalate "," (df.cols.map (fun c => csvCell (c.cells.getD i none)))

/-- Model of the external pandas to_csv with header row omitted: one line
per row, each ended by a newline. -/
def to_csv (df : DataFrame) : String :=
  String.join ((List.range df.nrows).map (fun i => csvRow df i ++ "\n"))

/-- A handler step that only sends one error acknowledgement
(ack_command_err). -/
def errStep (st : ServerState) (m : String) : Step :=
  { sent := [.ack_err m], st := st, crash := none, keepRunning := true }

/-- Modelled from the spec: the outcome of the external script executor
(spec section 9: execute(source, context) -> (stdout, stderr, ok or
error)): the text written to the redirected streams, the environment after
the script's side effects, and on failure the exception description. -/
inductive ExecResult where
  | success (out err : String) (env2 : List (String × Value))
  | failure (out err excText : String) (env2 : List (String × Value))

/-- The pluggable script executor capability. -/
abbrev ExecFn := String → List (String × Value) → ExecResult

/-- The text traceback.print_exc writes for a failed script; never empty. -/
def tracebackText (excText : String) : String :=
  "Traceback (most recent call last):\n" ++ excText ++ "\n"

/-! ## Handlers -/

/-- Model of send_debug_buffer (lines 92-104): drain both capture buffers
into an ok response and install fresh empty buffers. -/
def send_debug_buffer (st : ServerState) : Step :=
  { sent := [.ok_debug st.outBuf st.errBuf]
    st := { st with outBuf := "", errBuf := "" }
    crash := none
    keepRunning := true }

/-- Model of receive_instances (lines 106-125): store the header under the
headers dictionary, then if num_instances > 0 read a raw CSV frame, parse it
with the external pandas read_csv (passed in as readCsv) and store the
DataFrame; acknowledge ok, or report a missing header entry.  Missing
num_instances raises KeyError after the header was already stored; a missing
or non-dictionary headers entry makes the item assignment raise. -/
def receive_instances (readCsv : String → DataFrame) (msg : Message)
    (st : ServerState) (rawIn : Option String) : Step :=
  match msg.header with
  | none => errStep st "put instances json message does not contain a header entry!"
  | some h =>
    match lookupEnv st.env "headers" with
    | some (.headersDict hs) =>
      let st1 : ServerState :=
        { st with env := (setEnv st.env "headers"
            (.headersDict (setHeaders hs h.frame_name h))) }
      match msg.num_instances with
      | none => { sent := [], st := st1, crash := some .keyError, keepRunning := false }
      | some k =>
        if 0 < k then
          match rawIn with
          | none => { sent := [], st := st1, crash := some .recvBlocked, keepRunning := false }
          | some csv =>
            let df := readCsv csv
            let st2 : ServerState :=
              { st1 with env := setEnv st1.env h.frame_name (.table df) }
            let st3 := if message_debug msg then pushOut st2 (frameInfoText df) else st2
            { sent := [.ack_ok], st := st3, crash := none, keepRunning := true }
        else { sent := [.ack_ok], st := st1, crash := none, keepRunning := true }
    | none => { sent := [], st := st, crash := some .keyError, keepRunning := false }
    | some _ => { sent := [], st := st, crash := some .typeError, keepRunning := false }

/-- The exception len(frame.index) raises for a value that is not a
DataFrame: str and list objects carry an index METHOD, so the attribute
access succeeds and len of the bound method raises TypeError; None, bool,
int and dict objects have no index attribute, so the access itself raises
AttributeError. -/
def lenIndexErr : Value → PyErr
  | .obj (.pyStr _) => .typeError
  | .obj (.pyList _) => .typeError
  | _ => .attributeError

/-- Model of send_instances (lines 128-152): for a stored DataFrame,
acknowledge ok and send the instances_header response and the raw CSV frame.
A stored Python None fails the type test and, being None, is reported with
the 'is not defined' message (the frame is None branch), like an absent
name; any other non-DataFrame value is reported 'is not a DataFrame
object'.  Every error path then falls through to len(frame.index), which
raises (AttributeError, or TypeError for str/list values), so nothing
further is sent and the loop dies. -/
def send_instances (msg : Message) (st : ServerState) : Step :=
  match msg.frame_name with
  | none => { sent := [], st := st, crash := some .keyError, keepRunning := false }
  | some fname =>
    match get_variable st fname with
    | some (.table df) =>
      let hdr := instances_to_header_message fname df
      let st1 := if message_debug msg
        then pushOut st (showResponse (.instances_hdr df.nrows hdr) ++ "\n")
        else st
      { sent := [.ack_ok, .instances_hdr df.nrows hdr, .raw (to_csv df)]
        st := st1
        crash := none
        keepRunning := true }
    | some (.obj .pyNone) =>
      { sent := [.ack_err ("Variable " ++ fname ++ " is not defined")]
        st := st
        crash := some .attributeError
        keepRunning := false }
    | some v =>
      { sent := [.ack_err ("Variable " ++ fname ++ " is not a DataFrame object")]
        st := st
        crash := some (lenIndexErr v)
        keepRunning := false }
    | none =>
      { sent := [.ack_err ("Variable " ++ fname ++ " is not defined")]
        st := st
        crash := some .attributeError
        keepRunning := false }

/-- Model of execute_script (lines 240-267): an optional debug print happens
BEFORE the streams are redirected, so it lands in the installed capture
buffer; the script then runs with fresh buffers, an ordinary failure is
caught, a diagnostic line goes to the fresh output buffer and the traceback
to the fresh error buffer; the previous buffers are reinstalled and a single
ok response carries the per-call buffers. -/
def execute_script (execFn : ExecFn) (msg : Message) (st : ServerState) : Step :=
  match msg.script with
  | none => errStep st "execute script json message does not contain a script entry!"
  | some s =>
    let st1 := if message_debug msg
      then pushOut st ("Executing script...\n\n" ++ s ++ "\n")
      else st
    match execFn s st1.env with
    | .success out err env2 =>
      { sent := [.ok_script out err]
        st := { st1 with env := env2 }
        crash := none
        keepRunning := true }
    | .failure out err excText env2 =>
      { sent := [.ok_script (out ++ "Got an exception executing script\n")
          (err ++ tracebackText excText)]
        st := { st1 with env := env2 }
        crash := none
        keepRunning := true }

/-- Model of send_variable_is_set (lines 270-284): the answer is the Python
test var_value is not None, so an absent name and a stored None both report
false. -/
def send_variable_is_set (msg : Message) (st : ServerState) : Step :=
  match msg.variable_name with
  | none => errStep st "object exists json message does not contain a variable_name entry!"
  | some n =>
    let isSet : Bool :=
      match get_variable st n with
      | some (.obj .pyNone) => false
      | some _ => true
      | none => false
    { sent := [.ok_var_set n isSet], st := st, crash := none, keepRunning := true }

/-- Display string of a value for the string encoding; the exact rendering
of the external str is abstracted and no claim depends on it. -/
def strOfValue : Value → String
  | .obj .pyNone => "None"
  | .obj (.pyBool b) => cond b "True" "False"
  | .obj (.pyInt n) => toString n
  | .obj (.pyStr s) => String.mk (s.map Char.ofNat)
  | .obj (.pyList _) => "[...]"
  | .obj (.pyDict _) => "{...}"
  | .table df => "DataFrame with " ++ toString df.nrows ++ " rows"
  | .headersDict _ => "headers"

/-- Model of send_encoded_variable_value (lines 313-341): requires a
variable_name; a stored value that is not Python None is rendered under the
requested encoding (pickled values pass through the opaque codec and the
base64 text carrier) and answered in one ok response; an absent name or a
stored None is answered with an error naming the variable. -/
def send_encoded_variable_value (msg : Message) (enc : String)
    (st : ServerState) : Step :=
  match msg.variable_name with
  | none => errStep st "get variable value json message does not contain a variable_name entry!"
  | some n =>
    match get_variable st n with
    | some (.obj .pyNone) => errStep st (n ++ " does not exist!")
    | none => errStep st (n ++ " does not exist!")
    | some v =>
      let encoded : WireVal :=
        if enc = "pickled" then .wtext (base64_encode (pickleDumps v))
        else if enc = "json" then .wjson v
        else .wstr (strOfValue v)
      let st1 := if message_debug msg
        then pushOut st ("Sending " ++ enc ++ " value for var " ++ n ++ "\n\n")
        else st
      { sent := [.ok_var_value n enc encoded]
        st := st1
        crash := none
        keepRunning := true }

/-- Model of send_variable_value (lines 287-297): dispatch on the requested
encoding; unknown encodings and a missing encoding field are errors. -/
def send_variable_value (msg : Message) (st : ServerState) : Step :=
  match msg.variable_encoding with
  | none => errStep st "send variable value message does not contain an encoding field"
  | some enc =>
    if enc = "pickled" ∨ enc = "json" ∨ enc = "string" then
      send_encoded_variable_value msg enc st
    else errStep st "Unknown encoding type for send variable value message"

/-- Model of receive_pickled_variable_value (lines 351-368): decode the
portable text through base64 and the opaque codec and store the value; a
decoding failure raises (binascii.Error or an unpickling error) and is not
caught; missing fields are acknowledged with an error. -/
def receive_pickled_variable_value (msg : Message) (st : ServerState) : Step :=
  match msg.variable_name, msg.variable_value with
  | some n, some txt =>
    (match base64_decode txt with
    | none => { sent := [], st := st, crash := some .binasciiError, keepRunning := false }
    | some bytes =>
      match pickleLoads bytes with
      | none => { sent := [], st := st, crash := some .unpicklingError, keepRunning := false }
      | some v =>
        { sent := [.ack_ok]
          st := { st with env := setEnv st.env n v }
          crash := none
          keepRunning := true })
  | _, _ => errStep st "put variable value json message does not contain a variable_name or variable_value entry!"

/-- Model of receive_variable_value (lines 343-349): only the pickled
encoding is handled; any OTHER present encoding falls through the inner if
with no else branch, so nothing at all is sent; a missing encoding field is
an error. -/
def receive_variable_value (msg : Message) (st : ServerState) : Step :=
  match msg.variable_encoding with
  | none => errStep st "receive variable value message does not contain an encoding field"
  | some enc =>
    if enc = "pickled" then receive_pickled_variable_value msg st
    else { sent := [], st := st, crash := none, keepRunning := true }

/-- Model of one cycle of the runServer dispatch loop (lines 57-84): route
on the command field; a message without a command only logs when startup
debug is on; an unrecognized command falls through the elif chain silently;
shutdown stops the loop without a response. -/
def dispatch (readCsv : String → DataFrame) (execFn : ExecFn)
    (st : ServerState) (msg : Message) (rawIn : Option String) : Step :=
  match msg.command with
  | none =>
    { sent := []
      st := if st.startupDebug
        then pushOut st "message did not contain a command field!\n"
        else st
      crash := none
      keepRunning := true }
  | some cmd =>
    if cmd = "put_instances" then receive_instances readCsv msg st rawIn
    else if cmd = "get_instances" then send_instances msg st
    else if cmd = "execute_script" then execute_script execFn msg st
    else if cmd = "get_variable_value" then send_variable_value msg st
    else if cmd = "variable_is_set" then send_variable_is_set msg st
    else if cmd = "set_variable_value" then receive_variable_value msg st
    else if cmd = "get_debug_buffer" then send_debug_buffer st
    else if cmd = "shutdown" then
      { sent := []
        st := if st.startupDebug
          then pushOut st "Received shutdown command...\n\n"
          else st
        crash := none
        keepRunning := false }
    else { sent := [], st := st, crash := none, keepRunning := true }

/-- The state right after startup: _local_env holds the empty headers
dictionary and both capture buffers are freshly installed (the optional
startup banner is printed after redirection when debugging). -/
def initState (dbg : Bool) : ServerState :=
  { env := [("headers", .headersDict [])]
    outBuf := if dbg then "Python server starting...\n\n" else ""
    errBuf := ""
    startupDebug := dbg }

/-- A trivial concrete stand-in for the external pandas read_csv, used only
to instantiate witnesses. -/
def readCsv0 : String → DataFrame := fun _ => ⟨0, []⟩

/-- A trivial concrete script executor that writes nothing and leaves the
environment unchanged, used only to instantiate witnesses. -/
def execFn0 : ExecFn := fun _ env => .success "" "" env

/-- A concrete script executor whose scripts always fail, used only to
instantiate witnesses. -/
def execFnFail : ExecFn := fun _ env => .failure "" "" "ZeroDivisionError: division by zero" env

/-- The startup state with debugging off. -/
def st0 : ServerState := initState false

theorem lookupEnv_setEnv_self (e : List (String × Value)) (n : String) (v : Value) :
    lookupEnv (setEnv e n v) n = some v := by
  induction e with
  | nil => simp [setEnv, lookupEnv]
  | cons kv t ih =>
    obtain ⟨k, w⟩ := kv
    by_cases hk : k = n
    · simp [setEnv, hk, lookupEnv]
    · simp [setEnv, hk, lookupEnv, ih]

theorem append_tracebackText_ne_empty (a excText : String) :
    a ++ tracebackText excText ≠ "" := by
  intro h
  have h2 := congrArg String.data h
  simp only [String.data_append, tracebackText] at h2
  rcases List.append_eq_nil.mp h2 with ⟨_, h3⟩
  rcases List.append_eq_nil.mp h3 with ⟨h4, _⟩
  rcases List.append_eq_nil.mp h4 with ⟨h5, _⟩
  exact absurd h5 (by decide)

/-! ## Claim C9 -/

/-- Claim C9 (confirmed): a structured message without a command field
produces no response frame at all, leaves the variable environment
unchanged, does not crash, and the loop returns to waiting for the next
message. -/
theorem no_command_no_response (rc : String → DataFrame) (ef : ExecFn)
    (st : ServerState) (msg : Message) (rawIn : Option String)
    (h : msg.command = none) :
    (dispatch rc ef st msg rawIn).sent = []
      ∧ (dispatch rc ef st msg rawIn).st.env = st.env
      ∧ (dispatch rc ef st msg rawIn).crash = none
      ∧ (dispatch rc ef st msg rawIn).keepRunning = true := by
  have henv : (dispatch rc ef st msg rawIn).st.env = st.env := by
    simp only [dispatch, h]
    by_cases hd : st.startupDebug <;> simp [pushOut, hd]
  refine ⟨?_, henv, ?_, ?_⟩ <;> simp [dispatch, h]

theorem no_command_no_response_witness :
    (dispatch readCsv0 execFn0 st0 {} none).sent = []
      ∧ (dispatch readCsv0 execFn0 st0 {} none).st.env = st0.env
      ∧ (dispatch readCsv0 execFn0 st0 {} none).crash = none
      ∧ (dispatch readCsv0 execFn0 st0 {} none).keepRunning = true :=
  no_command_no_response readCsv0 execFn0 st0 {} none rfl

/-! ## Claim C4 -/

/-- Claim C4 (counterexample): with the startup variable store, a
get_instances request for the absent variable x sends ONLY the error
acknowledgement and then dies with an uncaught AttributeError from
len(frame.index) on None: no instances_header response and no raw data frame
follow it, contrary to the claim. -/
theorem get_instances_missing_counterexample :
    (dispatch readCsv0 execFn0 st0
        { command := some "get_instances", frame_name := some "x" } none).sent
      = [Response.ack_err "Variable x is not defined"]
    ∧ (dispatch readCsv0 execFn0 st0
        { command := some "get_instances", frame_name := some "x" } none).crash
      = some PyErr.attributeError := ⟨rfl, rfl⟩

/-- Claim C4 (amended): for a get_instances request naming a variable that is
absent from the environment or whose value is not a DataFrame, the handler
sends the error acknowledgement (the is-not-defined message for an absent
name or a stored Python None, the is-not-a-DataFrame message otherwise) and
then raises an uncaught error at len(frame.index) — AttributeError for
values with no index attribute, TypeError for str and list values whose
index method cannot be measured by len — so no instances_header response and
no raw data frame are sent and the protocol loop terminates. -/
theorem get_instances_missing_crashes (rc : String → DataFrame) (ef : ExecFn)
    (st : ServerState) (msg : Message) (n : String)
    (hcmd : msg.command = some "get_instances")
    (hfn : msg.frame_name = some n) :
    (lookupEnv st.env n = none →
      (dispatch rc ef st msg none).sent
          = [Response.ack_err ("Variable " ++ n ++ " is not defined")]
        ∧ (dispatch rc ef st msg none).crash = some PyErr.attributeError
        ∧ (dispatch rc ef st msg none).keepRunning = false)
    ∧ (lookupEnv st.env n = some (Value.obj PyObj.pyNone) →
      (dispatch rc ef st msg none).sent
          = [Response.ack_err ("Variable " ++ n ++ " is not defined")]
        ∧ (dispatch rc ef st msg none).crash = some PyErr.attributeError
        ∧ (dispatch rc ef st msg none).keepRunning = false)
    ∧ (∀ v, lookupEnv st.env n = some v → (∀ df, v ≠ Value.table df) →
        v ≠ Value.obj PyObj.pyNone →
      (dispatch rc ef st msg none).sent
          = [Response.ack_err ("Variable " ++ n ++ " is not a DataFrame object")]
        ∧ (dispatch rc ef st msg none).crash = some (lenIndexErr v)
        ∧ (dispatch rc ef st msg none).keepRunning = false) := by
  have hdisp : dispatch rc ef st msg none = send_instances msg st := by
    simp [dispatch, hcmd]
  rw [hdisp]
  refine ⟨?_, ?_, ?_⟩
  · intro hnone
    simp [send_instances, hfn, get_variable, hnone]
  · intro hvnone
    simp [send_instances, hfn, get_variable, hvnone]
  · intro v hv hnt hnn
    cases v with
    | table df => exact absurd rfl (hnt df)
    | obj o =>
      cases o with
      | pyNone => exact absurd rfl hnn
      | pyBool b => simp [send_instances, hfn, get_variable, hv, lenIndexErr]
      | pyInt m => simp [send_instances, hfn, get_variable, hv, lenIndexErr]
      | pyStr cs => simp [send_instances, hfn, get_variable, hv, lenIndexErr]
      | pyList xs => simp [send_instances, hfn, get_variable, hv, lenIndexErr]
      | pyDict kvs => simp [send_instances, hfn, get_variable, hv, lenIndexErr]
    | headersDict hs => simp [send_instances, hfn, get_variable, hv, lenIndexErr]

/-- A state holding a non-DataFrame value under y, used for witnesses. -/
def stWithObj : ServerState :=
  { env := [("headers", Value.headersDict []), ("y", Value.obj (PyObj.pyStr [104]))]
    outBuf := ""
    errBuf := ""
    startupDebug := false }

theorem get_instances_missing_crashes_witness :
    (dispatch readCsv0 execFn0 stWithObj
        { command := some "get_instances", frame_name := some "y" } none).sent
      = [Response.ack_err ("Variable " ++ "y" ++ " is not a DataFrame object")]
    ∧ (dispatch readCsv0 execFn0 stWithObj
        { command := some "get_instances", frame_name := some "y" } none).crash
      = some PyErr.typeError
    ∧ (dispatch readCsv0 execFn0 stWithObj
        { command := some "get_instances", frame_name := some "y" } none).keepRunning
      = false :=
  (get_instances_missing_crashes readCsv0 execFn0 stWithObj
      { command := some "get_instances", frame_name := some "y" } "y" rfl rfl).2.2
    (Value.obj (PyObj.pyStr [104])) rfl (fun _ h => Value.noConfusion h)
    (by intro h; injection h with h2; exact PyObj.noConfusion h2)

/-! ## Claim C5 -/

/-- Claim C5 (counterexample): a set_variable_value request carrying
variable_name, variable_value AND a variable_encoding of json receives no
acknowledgement frame at all — the handler tests only for the pickled
encoding and has no else branch — contradicting the claim that exactly one
ok or error acknowledgement is always sent. -/
theorem set_variable_silent_counterexample :
    (dispatch readCsv0 execFn0 st0
        { command := some "set_variable_value", variable_name := some "x",
          variable_value := some [65], variable_encoding := some "json" }
        none).sent = []
    ∧ (dispatch readCsv0 execFn0 st0
        { command := some "set_variable_value", variable_name := some "x",
          variable_value := some [65], variable_encoding := some "json" }
        none).st.env = st0.env
    ∧ (dispatch readCsv0 execFn0 st0
        { command := some "set_variable_value", variable_name := some "x",
          variable_value := some [65], variable_encoding := some "json" }
        none).crash = none := ⟨rfl, rfl, rfl⟩

/-- Claim C5 (amended): for a set_variable_value request carrying a
variable_encoding field, the handler sends exactly one ok acknowledgement
and stores the decoded value when the encoding is the opaque codec (pickled)
and the carried text decodes; when the encoding field holds ANY other value
it sends no acknowledgement at all and leaves the state unchanged. -/
theorem set_variable_value_behaviour (rc : String → DataFrame) (ef : ExecFn)
    (st : ServerState) (msg : Message) (enc : String)
    (hcmd : msg.command = some "set_variable_value")
    (henc : msg.variable_encoding = some enc) :
    (enc ≠ "pickled" →
      (dispatch rc ef st msg none).sent = []
        ∧ (dispatch rc ef st msg none).st = st
        ∧ (dispatch rc ef st msg none).crash = none
        ∧ (dispatch rc ef st msg none).keepRunning = true)
    ∧ (enc = "pickled" → ∀ n txt bs v,
        msg.variable_name = some n → msg.variable_value = some txt →
        base64_decode txt = some bs → pickleLoads bs = some v →
        (dispatch rc ef st msg none).sent = [Response.ack_ok]
          ∧ lookupEnv (dispatch rc ef st msg none).st.env n = some v
          ∧ (dispatch rc ef st msg none).crash = none) := by
  have hdisp : dispatch rc ef st msg none = receive_variable_value msg st := by
    simp [dispatch, hcmd]
  rw [hdisp]
  constructor
  · intro hne
    simp [receive_variable_value, henc, hne]
  · rintro rfl n txt bs v hn htxt hdec hload
    simp [receive_variable_value, henc, receive_pickled_variable_value,
      hn, htxt, hdec, hload, lookupEnv_setEnv_self]

/-- The concrete set_variable_value message storing the integer 7 under x,
used for the C5 witness. -/
def msgC5 : Message :=
  { command := some "set_variable_value"
    variable_name := some "x"
    variable_value := some (base64_encode (pickleDumps (Value.obj (PyObj.pyInt 7))))
    variable_encoding := some "pickled" }

theorem set_variable_value_behaviour_witness :
    (dispatch readCsv0 execFn0 st0 msgC5 none).sent = [Response.ack_ok]
      ∧ lookupEnv (dispatch readCsv0 execFn0 st0 msgC5 none).st.env "x"
        = some (Value.obj (PyObj.pyInt 7))
      ∧ (dispatch readCsv0 execFn0 st0 msgC5 none).crash = none :=
  (set_variable_value_behaviour readCsv0 execFn0 st0 msgC5 "pickled" rfl rfl).2
    rfl "x" (base64_encode (pickleDumps (Value.obj (PyObj.pyInt 7))))
    (pickleDumps (Value.obj (PyObj.pyInt 7))) (Value.obj (PyObj.pyInt 7))
    rfl rfl
    (base64_roundtrip _ (pickleDumps_obj_lt (PyObj.pyInt 7)))
    (pickleLoads_pickleDumps_obj (PyObj.pyInt 7))

/-! ## Dispatcher helper lemmas -/

theorem variable_is_set_step (rc : String → DataFrame) (ef : ExecFn)
    (st : ServerState) (msg : Message) (n : String)
    (hcmd : msg.command = some "variable_is_set")
    (hn : msg.variable_name = some n) :
    dispatch rc ef st msg none
      = { sent := [Response.ok_var_set n (match get_variable st n with
            | some (Value.obj PyObj.pyNone) => false
            | some _ => true
            | none => false)]
          st := st
          crash := none
          keepRunning := true } := by
  have hdisp : dispatch rc ef st msg none = send_variable_is_set msg st := by
    simp [dispatch, hcmd]
  rw [hdisp]
  simp [send_variable_is_set, hn]

theorem dispatch_set_pickled (rc : String → DataFrame) (ef : ExecFn)
    (st : ServerState) (msgSet : Message) (n : String) (txt bs : List Nat)
    (v : Value)
    (hcmd : msgSet.command = some "set_variable_value")
    (henc : msgSet.variable_encoding = some "pickled")
    (hn : msgSet.variable_name = some n)
    (htxt : msgSet.variable_value = some txt)
    (hdec : base64_decode txt = some bs)
    (hload : pickleLoads bs = some v) :
    dispatch rc ef st msgSet none
      = { sent := [Response.ack_ok]
          st := { st with env := setEnv st.env n v }
          crash := none
          keepRunning := true } := by
  have hdisp : dispatch rc ef st msgSet none = receive_variable_value msgSet st := by
    simp [dispatch, hcmd]
  rw [hdisp]
  simp [receive_variable_value, henc, receive_pickled_variable_value,
    hn, htxt, hdec, hload]

/-! ## Claim C6 -/

/-- Claim C6 (confirmed): for an execute_script request carrying a script,
with the executor modelled per the spec as returning ok or error, the
handler never produces an error response: it always sends exactly one ok
response carrying script_out and script_error, does not crash, keeps the
loop running, script_error is non-empty when the script failed (the
traceback is appended to the fresh error buffer), and a subsequent
variable_is_set command is answered normally. -/
theorem execute_script_always_ok (rc : String → DataFrame) (ef : ExecFn)
    (st : ServerState) (msg : Message) (s : String)
    (hcmd : msg.command = some "execute_script")
    (hs : msg.script = some s) :
    (∃ o e, (dispatch rc ef st msg none).sent = [Response.ok_script o e])
    ∧ (dispatch rc ef st msg none).crash = none
    ∧ (dispatch rc ef st msg none).keepRunning = true
    ∧ (∀ out err excText env2,
        ef s st.env = ExecResult.failure out err excText env2 →
        (dispatch rc ef st msg none).sent
          = [Response.ok_script (out ++ "Got an exception executing script\n")
              (err ++ tracebackText excText)]
          ∧ err ++ tracebackText excText ≠ "")
    ∧ (∀ n, ∃ b,
        (dispatch rc ef (dispatch rc ef st msg none).st
            { command := some "variable_is_set", variable_name := some n }
            none).sent
          = [Response.ok_var_set n b]) := by
  have hdisp : dispatch rc ef st msg none = execute_script ef msg st := by
    simp [dispatch, hcmd]
  rw [hdisp]
  simp only [execute_script, hs]
  have henv : (if message_debug msg
      then pushOut st ("Executing script...\n\n" ++ s ++ "\n") else st).env
      = st.env := by
    by_cases hd : message_debug msg <;> simp [pushOut, hd]
  rw [henv]
  cases hef : ef s st.env with
  | success out err env2 =>
    refine ⟨⟨out, err, rfl⟩, rfl, rfl, ?_, ?_⟩
    · intro out2 err2 exc2 env3 hfail
      exact ExecResult.noConfusion hfail
    · intro n
      rw [variable_is_set_step rc ef _
        { command := some "variable_is_set", variable_name := some n } n rfl rfl]
      exact ⟨_, rfl⟩
  | failure out err excText env2 =>
    refine ⟨⟨_, _, rfl⟩, rfl, rfl, ?_, ?_⟩
    · intro out2 err2 exc2 env3 hfail
      injection hfail with e1 e2 e3 e4
      subst e1; subst e2; subst e3
      exact ⟨rfl, append_tracebackText_ne_empty err excText⟩
    · intro n
      rw [variable_is_set_step rc ef _
        { command := some "variable_is_set", variable_name := some n } n rfl rfl]
      exact ⟨_, rfl⟩

theorem execute_script_always_ok_witness :
    (∃ o e, (dispatch readCsv0 execFnFail st0
        { command := some "execute_script", script := some "1/0" } none).sent
      = [Response.ok_script o e])
    ∧ (dispatch readCsv0 execFnFail st0
        { command := some "execute_script", script := some "1/0" } none).crash = none
    ∧ (dispatch readCsv0 execFnFail st0
        { command := some "execute_script", script := some "1/0" } none).keepRunning = true
    ∧ (∀ out err excText env2,
        execFnFail "1/0" st0.env = ExecResult.failure out err excText env2 →
        (dispatch readCsv0 execFnFail st0
            { command := some "execute_script", script := some "1/0" } none).sent
          = [Response.ok_script (out ++ "Got an exception executing script\n")
              (err ++ tracebackText excText)]
          ∧ err ++ tracebackText excText ≠ "")
    ∧ (∀ n, ∃ b,
        (dispatch readCsv0 execFnFail
            (dispatch readCsv0 execFnFail st0
              { command := some "execute_script", script := some "1/0" } none).st
            { command := some "variable_is_set", variable_name := some n }
            none).sent
          = [Response.ok_var_set n b]) :=
  execute_script_always_ok readCsv0 execFnFail st0
    { command := some "execute_script", script := some "1/0" } "1/0" rfl rfl

/-! ## Claim C7 -/

/-- Claim C7 (counterexample): storing Python None under x through a
successful opaque-codec set_variable_value is acknowledged ok, yet an
immediately following variable_is_set for x answers variable_exists = false,
because the handler tests the looked-up value against None; the claim fails
for the stored value None. -/
theorem variable_is_set_none_counterexample :
    (dispatch readCsv0 execFn0 st0
        { command := some "set_variable_value", variable_name := some "x",
          variable_value := some (base64_encode (pickleDumps (Value.obj PyObj.pyNone))),
          variable_encoding := some "pickled" } none).sent = [Response.ack_ok]
    ∧ (dispatch readCsv0 execFn0
        (dispatch readCsv0 execFn0 st0
          { command := some "set_variable_value", variable_name := some "x",
            variable_value := some (base64_encode (pickleDumps (Value.obj PyObj.pyNone))),
            variable_encoding := some "pickled" } none).st
        { command := some "variable_is_set", variable_name := some "x" } none).sent
      = [Response.ok_var_set "x" false] := ⟨rfl, rfl⟩

/-- Claim C7 (amended): variable_is_set answers false for every name absent
from the environment, and answers true immediately after a successful
opaque-codec set_variable_value storing any value OTHER than None; a stored
None reads as not set, since the check is a Python None test on the
looked-up value. -/
theorem variable_is_set_behaviour (rc : String → DataFrame) (ef : ExecFn)
    (st : ServerState) (msg : Message) (n : String)
    (hcmd : msg.command = some "variable_is_set")
    (hn : msg.variable_name = some n) :
    (lookupEnv st.env n = none →
      (dispatch rc ef st msg none).sent = [Response.ok_var_set n false])
    ∧ (∀ msgSet txt bs v,
        msgSet.command = some "set_variable_value" →
        msgSet.variable_encoding = some "pickled" →
        msgSet.variable_name = some n →
        msgSet.variable_value = some txt →
        base64_decode txt = some bs →
        pickleLoads bs = some v →
        v ≠ Value.obj PyObj.pyNone →
        (dispatch rc ef (dispatch rc ef st msgSet none).st msg none).sent
          = [Response.ok_var_set n true]) := by
  constructor
  · intro hnone
    rw [variable_is_set_step rc ef st msg n hcmd hn]
    simp [get_variable, hnone]
  · intro msgSet txt bs v h1 h2 h3 h4 h5 h6 h7
    rw [dispatch_set_pickled rc ef st msgSet n txt bs v h1 h2 h3 h4 h5 h6]
    rw [variable_is_set_step rc ef _ msg n hcmd hn]
    simp only [get_variable, lookupEnv_setEnv_self]

/-- The concrete set_variable_value message storing the integer 3 under x,
used for the C7 witness. -/
def msgC7set : Message :=
  { command := some "set_variable_value"
    variable_name := some "x"
    variable_value := some (base64_encode (pickleDumps (Value.obj (PyObj.pyInt 3))))
    variable_encoding := some "pickled" }

theorem variable_is_set_behaviour_witness :
    (dispatch readCsv0 execFn0 (dispatch readCsv0 execFn0 st0 msgC7set none).st
        { command := some "variable_is_set", variable_name := some "x" } none).sent
      = [Response.ok_var_set "x" true] :=
  (variable_is_set_behaviour readCsv0 execFn0 st0
      { command := some "variable_is_set", variable_name := some "x" } "x" rfl rfl).2
    msgC7set (base64_encode (pickleDumps (Value.obj (PyObj.pyInt 3))))
    (pickleDumps (Value.obj (PyObj.pyInt 3))) (Value.obj (PyObj.pyInt 3))
    rfl rfl rfl rfl
    (base64_roundtrip _ (pickleDumps_obj_lt (PyObj.pyInt 3)))
    (pickleLoads_pickleDumps_obj (PyObj.pyInt 3))
    (by intro h; injection h with h2; exact PyObj.noConfusion h2)

/-! ## Claim C8 -/

theorem dispatch_get_pickled_obj (rc : String → DataFrame) (ef : ExecFn)
    (st : ServerState) (msgGet : Message) (n : String) (o : PyObj)
    (g1 : msgGet.command = some "get_variable_value")
    (g2 : msgGet.variable_encoding = some "pickled")
    (g3 : msgGet.variable_name = some n)
    (hv : lookupEnv st.env n = some (Value.obj o))
    (ho : o ≠ PyObj.pyNone) :
    (dispatch rc ef st msgGet none).sent
      = [Response.ok_var_value n "pickled"
          (WireVal.wtext (base64_encode (pickleDumps (Value.obj o))))] := by
  have hdisp : dispatch rc ef st msgGet none = send_variable_value msgGet st := by
    simp [dispatch, g1]
  rw [hdisp]
  simp only [send_variable_value, g2]
  rw [if_pos (Or.inl trivial)]
  simp only [send_encoded_variable_value, g3, get_variable, hv]
  cases o with
  | pyNone => exact absurd rfl ho
  | pyBool b => simp
  | pyInt m => simp
  | pyStr cs => simp
  | pyList xs => simp
  | pyDict kvs => simp

/-- Claim C8 (counterexample): the value None is storable by the opaque
codec and set_variable_value stores it with an ok acknowledgement, but the
following get_variable_value (pickled) on the same name answers an error
claiming the variable does not exist, so the set-then-get round trip fails
for None. -/
theorem pickled_roundtrip_none_counterexample :
    (dispatch readCsv0 execFn0 st0
        { command := some "set_variable_value", variable_name := some "x",
          variable_value := some (base64_encode (pickleDumps (Value.obj PyObj.pyNone))),
          variable_encoding := some "pickled" } none).sent = [Response.ack_ok]
    ∧ (dispatch readCsv0 execFn0
        (dispatch readCsv0 execFn0 st0
          { command := some "set_variable_value", variable_name := some "x",
            variable_value := some (base64_encode (pickleDumps (Value.obj PyObj.pyNone))),
            variable_encoding := some "pickled" } none).st
        { command := some "get_variable_value", variable_name := some "x",
          variable_encoding := some "pickled" } none).sent
      = [Response.ack_err "x does not exist!"] := ⟨rfl, rfl⟩

/-- Claim C8 (amended): for every opaque-codec value other than None,
performing set_variable_value (pickled) and then get_variable_value
(pickled) on the same name round-trips: the set stores exactly the sent
value and acknowledges ok, the get answers one ok response whose
variable_value is the base64 text of the pickled stored value — the very
text originally sent — and decoding that text through base64 and the codec
inverse returns the original value. -/
theorem pickled_roundtrip (rc : String → DataFrame) (ef : ExecFn)
    (st : ServerState) (n : String) (o : PyObj) (msgSet msgGet : Message)
    (ho : o ≠ PyObj.pyNone)
    (h1 : msgSet.command = some "set_variable_value")
    (h2 : msgSet.variable_encoding = some "pickled")
    (h3 : msgSet.variable_name = some n)
    (h4 : msgSet.variable_value = some (base64_encode (pickleDumps (Value.obj o))))
    (g1 : msgGet.command = some "get_variable_value")
    (g2 : msgGet.variable_encoding = some "pickled")
    (g3 : msgGet.variable_name = some n) :
    (dispatch rc ef st msgSet none).sent = [Response.ack_ok]
    ∧ lookupEnv (dispatch rc ef st msgSet none).st.env n = some (Value.obj o)
    ∧ (dispatch rc ef (dispatch rc ef st msgSet none).st msgGet none).sent
      = [Response.ok_var_value n "pickled"
          (WireVal.wtext (base64_encode (pickleDumps (Value.obj o))))]
    ∧ base64_decode (base64_encode (pickleDumps (Value.obj o)))
      = some (pickleDumps (Value.obj o))
    ∧ pickleLoads (pickleDumps (Value.obj o)) = some (Value.obj o) := by
  have hdec := base64_roundtrip (pickleDumps (Value.obj o)) (pickleDumps_obj_lt o)
  have hload := pickleLoads_pickleDumps_obj o
  rw [dispatch_set_pickled rc ef st msgSet n
    (base64_encode (pickleDumps (Value.obj o))) (pickleDumps (Value.obj o))
    (Value.obj o) h1 h2 h3 h4 hdec hload]
  refine ⟨rfl, lookupEnv_setEnv_self st.env n (Value.obj o), ?_, hdec, hload⟩
  exact dispatch_get_pickled_obj rc ef _ msgGet n o g1 g2 g3
    (lookupEnv_setEnv_self st.env n (Value.obj o)) ho

/-- The concrete set_variable_value message storing a map containing a list
under x, used for the C8 witness. -/
def msgC8set : Message :=
  { command := some "set_variable_value"
    variable_name := some "x"
    variable_value := some (base64_encode (pickleDumps (Value.obj
      (PyObj.pyDict [(PyObj.pyStr [97], PyObj.pyList [PyObj.pyInt 1, PyObj.pyInt 2])]))))
    variable_encoding := some "pickled" }

/-- The concrete get_variable_value request for x under the pickled
encoding, used for the C8 witness. -/
def msgC8get : Message :=
  { command := some "get_variable_value"
    variable_name := some "x"
    variable_encoding := some "pickled" }

theorem pickled_roundtrip_witness :
    (dispatch readCsv0 execFn0 st0 msgC8set none).sent = [Response.ack_ok]
    ∧ lookupEnv (dispatch readCsv0 execFn0 st0 msgC8set none).st.env "x"
      = some (Value.obj
        (PyObj.pyDict [(PyObj.pyStr [97], PyObj.pyList [PyObj.pyInt 1, PyObj.pyInt 2])]))
    ∧ (dispatch readCsv0 execFn0 (dispatch readCsv0 execFn0 st0 msgC8set none).st
          msgC8get none).sent
      = [Response.ok_var_value "x" "pickled"
          (WireVal.wtext (base64_encode (pickleDumps (Value.obj
            (PyObj.pyDict [(PyObj.pyStr [97], PyObj.pyList [PyObj.pyInt 1, PyObj.pyInt 2])])))))]
    ∧ base64_decode (base64_encode (pickleDumps (Value.obj
        (PyObj.pyDict [(PyObj.pyStr [97], PyObj.pyList [PyObj.pyInt 1, PyObj.pyInt 2])]))))
      = some (pickleDumps (Value.obj
        (PyObj.pyDict [(PyObj.pyStr [97], PyObj.pyList [PyObj.pyInt 1, PyObj.pyInt 2])])))
    ∧ pickleLoads (pickleDumps (Value.obj
        (PyObj.pyDict [(PyObj.pyStr [97], PyObj.pyList [PyObj.pyInt 1, PyObj.pyInt 2])])))
      = some (Value.obj
        (PyObj.pyDict [(PyObj.pyStr [97], PyObj.pyList [PyObj.pyInt 1, PyObj.pyInt 2])])) :=
  pickled_roundtrip readCsv0 execFn0 st0 "x"
    (PyObj.pyDict [(PyObj.pyStr [97], PyObj.pyList [PyObj.pyInt 1, PyObj.pyInt 2])])
    msgC8set msgC8get
    (by intro h; exact PyObj.noConfusion h)
    rfl rfl rfl rfl rfl rfl rfl

/-! ## Claim C10 -/

/-- Claim C10 (counterexample): when the request sets the debug flag, the
execute_script handler prints its announcement together with the script
source into the PREVIOUSLY installed capture buffer before redirecting the
streams, so the capture buffer is not restored unchanged and a later drain
sees text added by the call. -/
theorem execute_script_debug_print_counterexample :
    (dispatch readCsv0 execFn0 st0
        { command := some "execute_script", script := some "x=1", debug := true }
        none).st.outBuf = "Executing script...\n\nx=1\n"
    ∧ st0.outBuf = ""
    ∧ (dispatch readCsv0 execFn0 st0
        { command := some "execute_script", script := some "x=1", debug := true }
        none).st.outBuf ≠ st0.outBuf := by
  refine ⟨rfl, rfl, ?_⟩
  decide

/-- Claim C10 (amended): for execute_script requests that do not set the
debug flag, the script's standard output and error go only into the fresh
per-call buffers returned as script_out and script_error in the single ok
response, the previously installed capture buffers are restored unchanged,
and a later get_debug_buffer drain returns exactly the prior buffer contents
and so reflects none of the script's own output; with the debug flag set the
handler additionally appends its announcement and the script source (not
script output) to the capture buffer before redirecting. -/
theorem execute_script_isolates_buffers (rc : String → DataFrame) (ef : ExecFn)
    (st : ServerState) (msg : Message) (s : String)
    (hcmd : msg.command = some "execute_script")
    (hs : msg.script = some s)
    (hdbg : msg.debug = false) :
    (dispatch rc ef st msg none).st.outBuf = st.outBuf
    ∧ (dispatch rc ef st msg none).st.errBuf = st.errBuf
    ∧ (∀ out err env2, ef s st.env = ExecResult.success out err env2 →
        (dispatch rc ef st msg none).sent = [Response.ok_script out err])
    ∧ (∀ out err excText env2,
        ef s st.env = ExecResult.failure out err excText env2 →
        (dispatch rc ef st msg none).sent
          = [Response.ok_script (out ++ "Got an exception executing script\n")
              (err ++ tracebackText excText)])
    ∧ (dispatch rc ef (dispatch rc ef st msg none).st
          { command := some "get_debug_buffer" } none).sent
      = [Response.ok_debug st.outBuf st.errBuf] := by
  have hdisp : dispatch rc ef st msg none = execute_script ef msg st := by
    simp [dispatch, hcmd]
  rw [hdisp]
  simp only [execute_script, hs, message_debug, hdbg, if_neg Bool.false_ne_true]
  cases hef : ef s st.env with
  | success out err env2 =>
    refine ⟨rfl, rfl, ?_, ?_, ?_⟩
    · intro out2 err2 env3 hsucc
      injection hsucc with e1 e2 e3
      subst e1; subst e2
      rfl
    · intro out2 err2 exc2 env3 hfail
      exact ExecResult.noConfusion hfail
    · simp [dispatch, send_debug_buffer]
  | failure out err excText env2 =>
    refine ⟨rfl, rfl, ?_, ?_, ?_⟩
    · intro out2 err2 env3 hsucc
      exact ExecResult.noConfusion hsucc
    · intro out2 err2 exc2 env3 hfail
      injection hfail with e1 e2 e3 e4
      subst e1; subst e2; subst e3
      rfl
    · simp [dispatch, send_debug_buffer]

theorem execute_script_isolates_buffers_witness :
    (dispatch readCsv0 execFn0 st0
        { command := some "execute_script", script := some "x=1" } none).st.outBuf
      = st0.outBuf
    ∧ (dispatch readCsv0 execFn0 st0
        { command := some "execute_script", script := some "x=1" } none).st.errBuf
      = st0.errBuf
    ∧ (∀ out err env2, execFn0 "x=1" st0.env = ExecResult.success out err env2 →
        (dispatch readCsv0 execFn0 st0
            { command := some "execute_script", script := some "x=1" } none).sent
          = [Response.ok_script out err])
    ∧ (∀ out err excText env2,
        execFn0 "x=1" st0.env = ExecResult.failure out err excText env2 →
        (dispatch readCsv0 execFn0 st0
            { command := some "execute_script", script := some "x=1" } none).sent
          = [Response.ok_script (out ++ "Got an exception executing script\n")
              (err ++ tracebackText excText)])
    ∧ (dispatch readCsv0 execFn0
          (dispatch readCsv0 execFn0 st0
            { command := some "execute_script", script := some "x=1" } none).st
          { command := some "get_debug_buffer" } none).sent
      = [Response.ok_debug st0.outBuf st0.errBuf] :=
  execute_script_isolates_buffers readCsv0 execFn0 st0
    { command := some "execute_script", script := some "x=1" } "x=1" rfl rfl rfl

end PyServer
